import Mathlib

/-
Verification of the baker's-percentage computation core of the recipe
management application (src/app.py).

Modelling conventions:
* Python floats are modelled as exact rationals (ℚ).  Python `round(x, n)`
  rounds half to even; it is modelled exactly on ℚ by `pyRound`.
* Python strings are modelled by Lean `String`; the handful of string
  operations the code uses (`strip`, `endswith`, `replace`, substring
  containment `in`) are modelled on the underlying character lists so that
  every definition evaluates by kernel reduction.
* `float(s)` is modelled by `pyFloat`, a parser for plain decimal literals
  (optional sign, digits, optional fractional part, surrounding
  whitespace) — the forms relevant to percent inputs; exotic forms
  (exponents, inf/nan, underscores) are outside the model.
* The Flask route `calculate_recipe_conversion` is modelled from the point
  where the recipe's ingredient list has been materialised (the database
  lookup and the 404 path are the external collaborator's concern); the
  error response (HTTP 400 with a message) is modelled as `Except.error`
  carrying the message.
-/

section RecipeCore

attribute [local semireducible] Rat.mul Rat.inv Rat.add Rat.sub Rat.ofScientific

/-- Characters treated as whitespace by the model of Python `str.strip`. -/
def isSpaceChar (c : Char) : Bool :=
  c == ' ' || c == '\t' || c == '\n' || c == '\r'

/-- Model of Python `str.strip` on a character list. -/
def trimChars (l : List Char) : List Char :=
  ((l.dropWhile isSpaceChar).reverse.dropWhile isSpaceChar).reverse

/-- Does the pattern occur at the head of the list? -/
def charsStartWith : List Char → List Char → Bool
  | [], _ => true
  | _ :: _, [] => false
  | a :: p, b :: l => a == b && charsStartWith p l

/-- Model of Python substring containment `pattern in s`. -/
def charsContain (l p : List Char) : Bool :=
  if charsStartWith p l then true
  else
    match l with
    | [] => false
    | _ :: t => charsContain t p

/-- Decimal digit test. -/
def isDigitChar (c : Char) : Bool := 48 ≤ c.toNat && c.toNat ≤ 57

/-- Numeric value of a digit string. -/
def digitsToNat (cs : List Char) : ℕ :=
  cs.foldl (fun a c => a * 10 + (c.toNat - 48)) 0

/-- Parse an unsigned decimal literal: digits with an optional fractional
part (`"5"`, `"5."`, `".5"`, `"62.5"`). -/
def parseUnsigned (cs : List Char) : Option ℚ :=
  let intPart := cs.takeWhile isDigitChar
  let rest := cs.dropWhile isDigitChar
  match rest with
  | [] => if intPart.isEmpty then none else some (digitsToNat intPart : ℚ)
  | '.' :: frac =>
    if frac.all isDigitChar then
      if intPart.isEmpty && frac.isEmpty then none
      else some ((digitsToNat intPart : ℚ) + (digitsToNat frac : ℚ) / (10 ^ frac.length))
    else none
  | _ => none

/-- Model of Python `float(s)` on plain decimal literals: surrounding
whitespace is ignored, an optional sign is allowed; parse failure
(Python `ValueError`) is `none`. -/
def pyFloat (s : List Char) : Option ℚ :=
  match trimChars s with
  | [] => none
  | '+' :: rest => parseUnsigned rest
  | '-' :: rest => (parseUnsigned rest).map (fun q => -q)
  | cs => parseUnsigned cs

/-- Floor of a rational, computed on the numerator and denominator. -/
def ratFloor (x : ℚ) : ℤ := x.num.fdiv x.den

/-- Round half to even to the nearest integer, as Python `round` does. -/
def roundHalfEven (x : ℚ) : ℤ :=
  let f := ratFloor x
  let r := x - (f : ℚ)
  if r < 1 / 2 then f
  else if 1 / 2 < r then f + 1
  else if f % 2 = 0 then f else f + 1

/-- Model of Python `round(x, n)` on exact rationals. -/
def pyRound (x : ℚ) (n : ℕ) : ℚ := (roundHalfEven (x * 10 ^ n) : ℚ) / 10 ^ n

/-- The argument of `normalize_percent_value`: Python `None`, a string, a
number (int or float), or a value of any other type. -/
inductive PercentValue where
  | pnull : PercentValue
  | pstr : String → PercentValue
  | pnum : ℚ → PercentValue
  | pother : PercentValue
deriving DecidableEq

/-- Embedding of `normalize_percent_value` (src/app.py lines 56-74). -/
def normalize_percent_value (p : PercentValue) : Option ℚ :=
  match p with
  | .pnull => none
  | .pstr s =>
    if s = "" then none
    else
      let t := trimChars s.data
      if t.getLast? == some '%' then
        match pyFloat (trimChars (t.filter (fun c => c != '%'))) with
        | some n => some (n / 100)
        | none => none
      else
        match pyFloat t with
        | some n => some (if 1 < n then n / 100 else n)
        | none => none
  | .pnum x => some (if 1 < x then x / 100 else x)
  | .pother => none

/-- The percent normaliser as the claim words it: a string ending in `%`
maps to the parse of the remainder left after stripping only the single
trailing `%` character, divided by 100 (null on parse failure).  Written
from the claim for a refinement comparison with
`normalize_percent_value`. -/
def normalize_percent_value_claim (p : PercentValue) : Option ℚ :=
  match p with
  | .pnull => none
  | .pstr s =>
    if s = "" then none
    else if s.data.getLast? == some '%' then
      match pyFloat s.data.dropLast with
      | some n => some (n / 100)
      | none => none
    else
      match pyFloat s.data with
      | some n => some (if 1 < n then n / 100 else n)
      | none => none
  | .pnum x => some (if 1 < x then x / 100 else x)
  | .pother => none

/-- Flour keyword list of `is_flour_ingredient` (src/app.py line 319). -/
def flour_keywords : List String :=
  ["高筋麵粉", "中筋麵粉", "低筋麵粉", "全麥麵粉", "裸麥粉", "麵粉"]

/-- Embedding of `is_flour_ingredient` (src/app.py lines 318-320). -/
def is_flour_ingredient (ingredient_name : String) : Bool :=
  flour_keywords.any (fun keyword => charsContain ingredient_name.data keyword.data)

/-- Percentage-group allow-list of `is_percentage_group` (src/app.py line 323). -/
def percentage_groups : List String :=
  ["主麵團", "麵團餡料A", "麵團餡料B", "波蘭種", "液種", "中種", "魯班種"]

/-- Embedding of `is_percentage_group` (src/app.py lines 322-324). -/
def is_percentage_group (group_name : String) : Bool :=
  percentage_groups.contains group_name

/-- An ingredient row as the conversion route materialises it
(src/app.py lines 283-289): group, name, weight, displayed percent,
description. -/
structure Ingredient where
  group : String
  name : String
  weight : ℚ
  percent : String
  desc : String
deriving DecidableEq

/-- Default ingredient, used only as the `getD` fallback in statements. -/
def defaultIngredient : Ingredient := ⟨"", "", 0, "", ""⟩

/-- Accumulation of `original_total_flour` (src/app.py lines 292-295). -/
def original_total_flour (ingredients : List Ingredient) : ℚ :=
  ingredients.foldl
    (fun acc ing =>
      if is_flour_ingredient ing.name && is_percentage_group ing.group then
        acc + ing.weight
      else acc)
    0

/-- The qualifying flour predicate as claim C2 words it: flour keyword
match, or a reference-table hydration recorded as exactly 0.  Written from
the claim for a refinement comparison with the code's keyword-only
predicate. -/
def is_flour_ingredient_claim (refTable : List (String × ℚ)) (ingredient_name : String) : Bool :=
  is_flour_ingredient ingredient_name ||
    (match refTable.lookup ingredient_name with
     | some h => decide (h = 0)
     | none => false)

/-- The original-total-flour sum as claim C2 words it, over the
claim's qualifying predicate. -/
def original_total_flour_claim (refTable : List (String × ℚ)) (ingredients : List Ingredient) : ℚ :=
  ((ingredients.filter
      (fun ing => is_flour_ingredient_claim refTable ing.name && is_percentage_group ing.group)).map
    Ingredient.weight).sum

/-- The JSON payload of a successful conversion (src/app.py lines 309-316):
the scalar totals and ratio exactly as computed, the converted ingredient
list, and the echoed source recipe (its ingredient list). -/
structure ConversionResult where
  originalTotalFlour : ℚ
  newTotalFlour : ℚ
  conversionRatio : ℚ
  ingredients : List Ingredient
  recipe : List Ingredient
deriving DecidableEq

/-- Per-ingredient body of the conversion loop (src/app.py lines 303-307):
`ing.copy()` with the weight scaled and rounded to one decimal when the
group is a percentage group or the caller opted non-percentage groups in;
otherwise the unchanged copy. -/
def convertIngredient (ratio : ℚ) (include_non_percentage_groups : Bool) (ing : Ingredient) : Ingredient :=
  if is_percentage_group ing.group || include_non_percentage_groups then
    { ing with weight := pyRound (ing.weight * ratio) 1 }
  else ing

/-- Embedding of the computational part of `calculate_recipe_conversion`
(src/app.py lines 291-316), from the materialised ingredient list on. -/
def calculate_recipe_conversion (ingredients : List Ingredient) (new_total_flour : ℚ)
    (include_non_percentage_groups : Bool) : Except String ConversionResult :=
  let otf := original_total_flour ingredients
  if otf ≤ 0 then Except.error "此食譜沒有麵粉食材或麵粉重量為0"
  else
    let ratio := new_total_flour / otf
    Except.ok
      { originalTotalFlour := otf
        newTotalFlour := new_total_flour
        conversionRatio := ratio
        ingredients := ingredients.map (convertIngredient ratio include_non_percentage_groups)
        recipe := ingredients }

deriving instance DecidableEq for Except

/-- Did the conversion succeed? -/
def convIsOk (e : Except String ConversionResult) : Bool :=
  match e with
  | .ok _ => true
  | .error _ => false

/-- The `conversionRatio` field of a successful conversion. -/
def convRatioOf (e : Except String ConversionResult) : Option ℚ :=
  match e with
  | .ok r => some r.conversionRatio
  | .error _ => none

/-- The `originalTotalFlour` field of a successful conversion. -/
def convOrigOf (e : Except String ConversionResult) : Option ℚ :=
  match e with
  | .ok r => some r.originalTotalFlour
  | .error _ => none

/-- The `newTotalFlour` field of a successful conversion. -/
def convNewOf (e : Except String ConversionResult) : Option ℚ :=
  match e with
  | .ok r => some r.newTotalFlour
  | .error _ => none

/-- The converted ingredient list of a successful conversion
(empty on failure). -/
def convIngredientsOf (e : Except String ConversionResult) : List Ingredient :=
  match e with
  | .ok r => r.ingredients
  | .error _ => []

/-- The echoed source recipe of a successful conversion. -/
def convRecipeOf (e : Except String ConversionResult) : Option (List Ingredient) :=
  match e with
  | .ok r => some r.recipe
  | .error _ => none

/-- Modelled from the spec: the hydration clamp of §4.3 step 2 — a
reference-table hydration value is clamped to `[0, 100]` before use.
The hydration calculator itself is absent from src/. -/
def clampHydration (h : ℚ) : ℚ :=
  if h < 0 then 0 else if 100 < h then 100 else h

/-- Modelled from the spec: the water/milk/liquid/juice keyword set of the
§4.3 step 3 fallback (configuration the spec leaves enumerable). -/
def water_keywords : List String := ["水", "牛奶", "液", "汁"]

/-- Modelled from the spec: the egg keyword set of the §4.3 step 3
fallback. -/
def egg_keywords : List String := ["蛋"]

/-- Modelled from the spec: the per-ingredient accumulation step of
`calculateHydration` (§4.3 steps 1-3), threading (flour total, water
total).  Ingredients with non-positive weight or a non-percentage group
are skipped; a reference-table entry is clamped and the weight split into
dry and wet shares (full weight when the clamped hydration is 0 or 100);
without an entry the keyword fallback applies, eggs counting as 75%
water. -/
def hydrationStep (refTable : List (String × ℚ)) (acc : ℚ × ℚ) (ing : Ingredient) : ℚ × ℚ :=
  if ing.weight ≤ 0 ∨ is_percentage_group ing.group = false then acc
  else
    match refTable.lookup ing.name with
    | some h0 =>
      if clampHydration h0 = 0 then (acc.1 + ing.weight, acc.2)
      else if clampHydration h0 = 100 then (acc.1, acc.2 + ing.weight)
      else
        (acc.1 + ing.weight * (100 - clampHydration h0) / 100,
         acc.2 + ing.weight * clampHydration h0 / 100)
    | none =>
      if is_flour_ingredient ing.name then (acc.1 + ing.weight, acc.2)
      else if water_keywords.any (fun k => charsContain ing.name.data k.data) then
        (acc.1, acc.2 + ing.weight)
      else if egg_keywords.any (fun k => charsContain ing.name.data k.data) then
        (acc.1, acc.2 + ing.weight * (75 / 100))
      else acc

/-- Render a natural number as two decimal digits. -/
def natTwoDigits (k : ℕ) : String :=
  if k < 10 then "0" ++ toString k else toString k

/-- Format a rational to exactly two decimal places (the spec's
`"NN.NN"` shaping, rounding half to even at the second decimal). -/
def formatTwoDecimals (x : ℚ) : String :=
  let n := roundHalfEven (x * 100)
  let m := n.natAbs
  let core := toString (m / 100) ++ "." ++ natTwoDigits (m % 100)
  if n < 0 then "-" ++ core else core

/-- Modelled from the spec: `calculateHydration(ingredients,
referenceTable)` of §4.3, absent from src/ — fold the per-ingredient step
over the list, then return `(water total / flour total) * 100` formatted
to two decimals with a `%` suffix, or the literal `"0%"` when the flour
total is zero. -/
def calculate_hydration (ingredients : List Ingredient) (refTable : List (String × ℚ)) : String :=
  let totals := ingredients.foldl (hydrationStep refTable) (0, 0)
  if totals.1 = 0 then "0%"
  else formatTwoDecimals (totals.2 / totals.1 * 100) ++ "%"

/-- An ingredient qualifies for hydration accounting when its weight is
positive and its group is a percentage group (spec §4.3 step 1). -/
def qualifiesForHydration (ing : Ingredient) : Bool :=
  decide (0 < ing.weight) && is_percentage_group ing.group

/-- The clamped reference hydration of an ingredient (0 when absent,
used only under the everywhere-present hypothesis). -/
def refHydrationOf (refTable : List (String × ℚ)) (ing : Ingredient) : ℚ :=
  clampHydration ((refTable.lookup ing.name).getD 0)

/-- Dry (flour-equivalent) share of an ingredient: `weight * (100-h)/100`. -/
def dryShare (refTable : List (String × ℚ)) (ing : Ingredient) : ℚ :=
  ing.weight * (100 - refHydrationOf refTable ing) / 100

/-- Wet (water-equivalent) share of an ingredient: `weight * h/100`. -/
def wetShare (refTable : List (String × ℚ)) (ing : Ingredient) : ℚ :=
  ing.weight * refHydrationOf refTable ing / 100

/-- Flour total as the claim words it: the sum of the dry shares of the
qualifying ingredients. -/
def flourTotalOf (ingredients : List Ingredient) (refTable : List (String × ℚ)) : ℚ :=
  ((ingredients.filter qualifiesForHydration).map (dryShare refTable)).sum

/-- Water total as the claim words it: the sum of the wet shares of the
qualifying ingredients. -/
def waterTotalOf (ingredients : List Ingredient) (refTable : List (String × ℚ)) : ℚ :=
  ((ingredients.filter qualifiesForHydration).map (wetShare refTable)).sum

/-- Does every numeric value `normalize_percent_value` could parse out of
the input come out non-negative?  (Both candidate parses of a string are
constrained; unparseable branches constrain nothing.) -/
def percentInputNonneg : PercentValue → Bool
  | .pnull => true
  | .pother => true
  | .pnum x => decide (0 ≤ x)
  | .pstr s =>
    (match pyFloat (trimChars ((trimChars s.data).filter (fun c => c != '%'))) with
     | some v => decide (0 ≤ v)
     | none => true) &&
    (match pyFloat (trimChars s.data) with
     | some v => decide (0 ≤ v)
     | none => true)

/-- Demo recipe: one percentage-group flour ingredient and one
non-percentage decoration ingredient. -/
def demoA : List Ingredient :=
  [⟨"主麵團", "高筋麵粉", 500, "100.00%", ""⟩, ⟨"裝飾", "糖粉", 20, "", "sift"⟩]

/-- Demo recipe whose flour total (300) gives the non-terminating
ratio 100/300 = 1/3. -/
def demoB : List Ingredient := [⟨"主麵團", "高筋麵粉", 300, "", ""⟩]

/-- Demo recipe with a percentage-group starch ingredient whose name
matches no flour keyword. -/
def demoC : List Ingredient := [⟨"主麵團", "太白粉", 100, "", ""⟩]

/-- Reference table marking the starch's hydration as exactly 0. -/
def refC : List (String × ℚ) := [("太白粉", 0)]

/-- Demo recipe with no flour ingredient at all. -/
def demoD : List Ingredient := [⟨"裝飾", "糖粉", 20, "", ""⟩]

/-- Demo dough for the hydration scenario: 1000 g flour, 700 g water. -/
def demoH : List Ingredient :=
  [⟨"主麵團", "高筋麵粉", 1000, "", ""⟩, ⟨"主麵團", "水", 700, "", ""⟩]

/-- Reference table for the hydration scenario: water is 100% hydration,
the flour 0%. -/
def refH : List (String × ℚ) := [("水", 100), ("高筋麵粉", 0)]

/-- Shape of a successful conversion: when the original total flour is
positive the guard is not taken and the route returns the computed record. -/
theorem calc_conv_ok (ings : List Ingredient) (ntf : ℚ) (inc : Bool)
    (h : 0 < original_total_flour ings) :
    calculate_recipe_conversion ings ntf inc = Except.ok
      { originalTotalFlour := original_total_flour ings
        newTotalFlour := ntf
        conversionRatio := ntf / original_total_flour ings
        ingredients := ings.map (convertIngredient (ntf / original_total_flour ings) inc)
        recipe := ings } := by
  unfold calculate_recipe_conversion
  rw [if_neg (not_le.mpr h)]

/-- A successful conversion forces a positive original total flour. -/
theorem otf_pos_of_ok (ings : List Ingredient) (ntf : ℚ) (inc : Bool)
    (h : convIsOk (calculate_recipe_conversion ings ntf inc) = true) :
    0 < original_total_flour ings := by
  by_contra hlt
  simp [calculate_recipe_conversion, if_pos (le_of_not_lt hlt), convIsOk] at h

/-- `getD` of a mapped list at an in-range index. -/
theorem map_getD_of_lt (f : Ingredient → Ingredient) :
    ∀ (l : List Ingredient) (i : ℕ), i < l.length →
      (l.map f).getD i defaultIngredient = f (l.getD i defaultIngredient)
  | [], i, h => absurd h (by simp)
  | _ :: _, 0, _ => rfl
  | _ :: t, i + 1, h => by
    simpa [List.getD_cons_succ] using map_getD_of_lt f t i (by simpa using h)

/-- The loop body scales the weight exactly when the group is a
percentage group or the caller opted non-percentage groups in. -/
theorem convertIngredient_weight (ratio : ℚ) (inc : Bool) (ing : Ingredient) :
    (convertIngredient ratio inc ing).weight =
      if is_percentage_group ing.group || inc then pyRound (ing.weight * ratio) 1
      else ing.weight := by
  unfold convertIngredient
  split <;> rfl

/-- The loop body never touches the group field. -/
theorem convertIngredient_group (ratio : ℚ) (inc : Bool) (ing : Ingredient) :
    (convertIngredient ratio inc ing).group = ing.group := by
  unfold convertIngredient
  split <;> rfl

/-- The loop body never touches the name field. -/
theorem convertIngredient_name (ratio : ℚ) (inc : Bool) (ing : Ingredient) :
    (convertIngredient ratio inc ing).name = ing.name := by
  unfold convertIngredient
  split <;> rfl

/-- The loop body never touches the percent field. -/
theorem convertIngredient_percent (ratio : ℚ) (inc : Bool) (ing : Ingredient) :
    (convertIngredient ratio inc ing).percent = ing.percent := by
  unfold convertIngredient
  split <;> rfl

/-- The loop body never touches the description field. -/
theorem convertIngredient_desc (ratio : ℚ) (inc : Bool) (ing : Ingredient) :
    (convertIngredient ratio inc ing).desc = ing.desc := by
  unfold convertIngredient
  split <;> rfl

/-- C1: on every recipe whose computed original total flour is positive,
the conversion succeeds with conversionRatio = newTotalFlour /
originalTotalFlour, and the weight of each output ingredient, in order, is
round(weight * conversionRatio, 1) exactly when its group is a percentage
group or includeNonPercentageGroups is set, the unchanged weight
otherwise. -/
theorem conversion_sets_ratio_and_scales_weights (ings : List Ingredient) (ntf : ℚ) (inc : Bool)
    (h : 0 < original_total_flour ings) :
    convIsOk (calculate_recipe_conversion ings ntf inc) = true ∧
    convRatioOf (calculate_recipe_conversion ings ntf inc) =
      some (ntf / original_total_flour ings) ∧
    (convIngredientsOf (calculate_recipe_conversion ings ntf inc)).length = ings.length ∧
    ∀ i, i < ings.length →
      ((convIngredientsOf (calculate_recipe_conversion ings ntf inc)).getD i defaultIngredient).weight =
        if is_percentage_group (ings.getD i defaultIngredient).group || inc then
          pyRound ((ings.getD i defaultIngredient).weight * (ntf / original_total_flour ings)) 1
        else (ings.getD i defaultIngredient).weight := by
  rw [calc_conv_ok ings ntf inc h]
  refine ⟨rfl, rfl, by simp [convIngredientsOf], ?_⟩
  intro i hi
  show ((ings.map (convertIngredient (ntf / original_total_flour ings) inc)).getD i
      defaultIngredient).weight = _
  rw [map_getD_of_lt _ _ _ hi, convertIngredient_weight]

/-- Witness for C1 on the demo recipe at newTotalFlour = 1000. -/
theorem conversion_sets_ratio_and_scales_weights_witness :
    0 < original_total_flour demoA ∧
    (convIsOk (calculate_recipe_conversion demoA 1000 false) = true ∧
     convRatioOf (calculate_recipe_conversion demoA 1000 false) =
       some (1000 / original_total_flour demoA) ∧
     (convIngredientsOf (calculate_recipe_conversion demoA 1000 false)).length = demoA.length ∧
     ∀ i, i < demoA.length →
       ((convIngredientsOf (calculate_recipe_conversion demoA 1000 false)).getD i
           defaultIngredient).weight =
         if is_percentage_group (demoA.getD i defaultIngredient).group || false then
           pyRound ((demoA.getD i defaultIngredient).weight *
             (1000 / original_total_flour demoA)) 1
         else (demoA.getD i defaultIngredient).weight) :=
  ⟨by decide, conversion_sets_ratio_and_scales_weights demoA 1000 false (by decide)⟩

/-- C4: whenever the computed original total flour is non-positive (in
particular when no qualifying flour ingredient exists), the conversion
fails with the "no flour ingredient" error and produces no result. -/
theorem conversion_fails_without_flour (ings : List Ingredient) (ntf : ℚ) (inc : Bool)
    (h : original_total_flour ings ≤ 0) :
    calculate_recipe_conversion ings ntf inc =
      Except.error "此食譜沒有麵粉食材或麵粉重量為0" := by
  unfold calculate_recipe_conversion
  rw [if_pos h]

/-- Witness for C4 on the flourless demo recipe. -/
theorem conversion_fails_without_flour_witness :
    original_total_flour demoD ≤ 0 ∧
    calculate_recipe_conversion demoD 100 false =
      Except.error "此食譜沒有麵粉食材或麵粉重量為0" :=
  ⟨by decide, conversion_fails_without_flour demoD 100 false (by decide)⟩

/-- C8: every successful conversion returns as many ingredients as the
input recipe has, in order, and the group, name, percent and description
of each output ingredient equal those of the input ingredient at the same
position. -/
theorem conversion_preserves_order_and_fields (ings : List Ingredient) (ntf : ℚ) (inc : Bool)
    (h : convIsOk (calculate_recipe_conversion ings ntf inc) = true) :
    (convIngredientsOf (calculate_recipe_conversion ings ntf inc)).length = ings.length ∧
    ∀ i, i < ings.length →
      ((convIngredientsOf (calculate_recipe_conversion ings ntf inc)).getD i
          defaultIngredient).group = (ings.getD i defaultIngredient).group ∧
      ((convIngredientsOf (calculate_recipe_conversion ings ntf inc)).getD i
          defaultIngredient).name = (ings.getD i defaultIngredient).name ∧
      ((convIngredientsOf (calculate_recipe_conversion ings ntf inc)).getD i
          defaultIngredient).percent = (ings.getD i defaultIngredient).percent ∧
      ((convIngredientsOf (calculate_recipe_conversion ings ntf inc)).getD i
          defaultIngredient).desc = (ings.getD i defaultIngredient).desc := by
  have hpos := otf_pos_of_ok ings ntf inc h
  rw [calc_conv_ok ings ntf inc hpos]
  refine ⟨by simp [convIngredientsOf], ?_⟩
  intro i hi
  simp only [convIngredientsOf]
  rw [map_getD_of_lt _ _ _ hi]
  exact ⟨convertIngredient_group _ _ _, convertIngredient_name _ _ _,
    convertIngredient_percent _ _ _, convertIngredient_desc _ _ _⟩

/-- Witness for C8 on the demo recipe. -/
theorem conversion_preserves_order_and_fields_witness :
    convIsOk (calculate_recipe_conversion demoA 750 true) = true ∧
    ((convIngredientsOf (calculate_recipe_conversion demoA 750 true)).length = demoA.length ∧
     ∀ i, i < demoA.length →
       ((convIngredientsOf (calculate_recipe_conversion demoA 750 true)).getD i
           defaultIngredient).group = (demoA.getD i defaultIngredient).group ∧
       ((convIngredientsOf (calculate_recipe_conversion demoA 750 true)).getD i
           defaultIngredient).name = (demoA.getD i defaultIngredient).name ∧
       ((convIngredientsOf (calculate_recipe_conversion demoA 750 true)).getD i
           defaultIngredient).percent = (demoA.getD i defaultIngredient).percent ∧
       ((convIngredientsOf (calculate_recipe_conversion demoA 750 true)).getD i
           defaultIngredient).desc = (demoA.getD i defaultIngredient).desc) :=
  ⟨by decide, conversion_preserves_order_and_fields demoA 750 true (by decide)⟩

/-- C10: a successful conversion echoes the source recipe back with its
ingredient records exactly as supplied — in particular every input weight
is still the original, unscaled one; the scaled list is built from
copies. -/
theorem conversion_echoes_unmutated_recipe (ings : List Ingredient) (ntf : ℚ) (inc : Bool)
    (h : convIsOk (calculate_recipe_conversion ings ntf inc) = true) :
    convRecipeOf (calculate_recipe_conversion ings ntf inc) = some ings := by
  have hpos := otf_pos_of_ok ings ntf inc h
  rw [calc_conv_ok ings ntf inc hpos]
  rfl

/-- Witness for C10 on the demo recipe. -/
theorem conversion_echoes_unmutated_recipe_witness :
    convIsOk (calculate_recipe_conversion demoA 1000 true) = true ∧
    convRecipeOf (calculate_recipe_conversion demoA 1000 true) = some demoA :=
  ⟨by decide, conversion_echoes_unmutated_recipe demoA 1000 true (by decide)⟩

/-- C3 counterexample: with a positive flour total and newTotalFlour = 0
(≤ 0), the code succeeds and returns a result — it does not fail with an
invalid-input error as the claim states. -/
theorem conversion_accepts_nonpositive_new_flour :
    (0 : ℚ) ≤ 0 ∧ convIsOk (calculate_recipe_conversion demoA 0 false) = true := by
  decide

/-- C3 amended: the code never validates newTotalFlour; for every recipe
with positive original total flour and every newTotalFlour ≤ 0 the
conversion succeeds, with conversionRatio = newTotalFlour /
originalTotalFlour (≤ 0). -/
theorem conversion_succeeds_for_nonpositive_new_flour (ings : List Ingredient) (ntf : ℚ)
    (inc : Bool) (h1 : ntf ≤ 0) (h2 : 0 < original_total_flour ings) :
    convIsOk (calculate_recipe_conversion ings ntf inc) = true ∧
    convRatioOf (calculate_recipe_conversion ings ntf inc) =
      some (ntf / original_total_flour ings) ∧
    ntf / original_total_flour ings ≤ 0 := by
  rw [calc_conv_ok ings ntf inc h2]
  exact ⟨rfl, rfl, div_nonpos_of_nonpos_of_nonneg h1 (le_of_lt h2)⟩

/-- Witness for the amended C3 at newTotalFlour = 0. -/
theorem conversion_succeeds_for_nonpositive_new_flour_witness :
    (0 : ℚ) ≤ 0 ∧ 0 < original_total_flour demoA ∧
    (convIsOk (calculate_recipe_conversion demoA 0 false) = true ∧
     convRatioOf (calculate_recipe_conversion demoA 0 false) =
       some (0 / original_total_flour demoA) ∧
     (0 : ℚ) / original_total_flour demoA ≤ 0) :=
  ⟨by decide, by decide,
    conversion_succeeds_for_nonpositive_new_flour demoA 0 false (by decide) (by decide)⟩

/-- C5 counterexample: on a 300 g flour recipe converted to 100 g the
returned conversionRatio is exactly 1/3, not its three-decimal rounding
333/1000 — the route returns the raw ratio. -/
theorem conversion_result_ratio_not_rounded :
    convIsOk (calculate_recipe_conversion demoB 100 false) = true ∧
    convRatioOf (calculate_recipe_conversion demoB 100 false) = some (1 / 3) ∧
    convRatioOf (calculate_recipe_conversion demoB 100 false) ≠
      some (pyRound ((100 : ℚ) / 300) 3) := by
  decide

/-- C5 amended: a successful conversion carries originalTotalFlour,
newTotalFlour and conversionRatio exactly as computed, with no rounding
applied to any of the three scalars. -/
theorem conversion_result_fields_exact (ings : List Ingredient) (ntf : ℚ) (inc : Bool)
    (h : convIsOk (calculate_recipe_conversion ings ntf inc) = true) :
    convOrigOf (calculate_recipe_conversion ings ntf inc) = some (original_total_flour ings) ∧
    convNewOf (calculate_recipe_conversion ings ntf inc) = some ntf ∧
    convRatioOf (calculate_recipe_conversion ings ntf inc) =
      some (ntf / original_total_flour ings) := by
  have hpos := otf_pos_of_ok ings ntf inc h
  rw [calc_conv_ok ings ntf inc hpos]
  exact ⟨rfl, rfl, rfl⟩

/-- Witness for the amended C5 on the 1/3-ratio recipe. -/
theorem conversion_result_fields_exact_witness :
    convIsOk (calculate_recipe_conversion demoB 100 false) = true ∧
    (convOrigOf (calculate_recipe_conversion demoB 100 false) =
       some (original_total_flour demoB) ∧
     convNewOf (calculate_recipe_conversion demoB 100 false) = some 100 ∧
     convRatioOf (calculate_recipe_conversion demoB 100 false) =
       some (100 / original_total_flour demoB)) :=
  ⟨by decide, conversion_result_fields_exact demoB 100 false (by decide)⟩

/-- The flour-total accumulation, with a generalised accumulator, equals
the accumulator plus the sum of the qualifying weights. -/
theorem otf_foldl_eq (l : List Ingredient) :
    ∀ acc : ℚ,
      l.foldl
        (fun acc ing =>
          if is_flour_ingredient ing.name && is_percentage_group ing.group then acc + ing.weight
          else acc) acc =
      acc + ((l.filter
          (fun ing => is_flour_ingredient ing.name && is_percentage_group ing.group)).map
        Ingredient.weight).sum := by
  induction l with
  | nil => intro acc; simp
  | cons a t ih =>
    intro acc
    by_cases hc : (is_flour_ingredient a.name && is_percentage_group a.group) = true
    · simp only [List.foldl_cons, List.filter_cons, hc, if_true, List.map_cons, List.sum_cons, ih]
      ring
    · have hc2 : (is_flour_ingredient a.name && is_percentage_group a.group) = false := by
        revert hc
        cases is_flour_ingredient a.name && is_percentage_group a.group <;> simp
      simp only [List.foldl_cons, List.filter_cons, hc2, ih]
      rfl

/-- C2 counterexample: a percentage-group starch ("太白粉") matching no
flour keyword but recorded with hydration exactly 0 in the reference table
contributes nothing to the code's originalTotalFlour — the conversion even
fails for lack of flour — while the claim's keyword-or-zero-hydration
predicate counts its full 100 g. -/
theorem flour_predicate_ignores_reference_table :
    original_total_flour demoC = 0 ∧
    original_total_flour_claim refC demoC = 100 ∧
    calculate_recipe_conversion demoC 200 false =
      Except.error "此食譜沒有麵粉食材或麵粉重量為0" := by
  decide

/-- C2 amended: an ingredient's weight counts toward originalTotalFlour
exactly when its name matches a flour keyword and its group is a
percentage group — the reference table is never consulted — and
originalTotalFlour is the sum of the weights of exactly those
ingredients. -/
theorem original_total_flour_keyword_sum (ings : List Ingredient) :
    original_total_flour ings =
      ((ings.filter
          (fun ing => is_flour_ingredient ing.name && is_percentage_group ing.group)).map
        Ingredient.weight).sum := by
  unfold original_total_flour
  rw [otf_foldl_eq]
  ring

/-- C6 counterexample: on `"5%0%"` (a string ending in '%' whose
remainder after stripping the trailing '%' does not parse) the code
returns 0.5 — it removes every '%' via `replace` — while the claim's
strip-only-the-trailing-'%' reading yields null. -/
theorem percent_string_replace_counterexample :
    normalize_percent_value (.pstr "5%0%") = some (1 / 2) ∧
    normalize_percent_value_claim (.pstr "5%0%") = none := by
  decide

/-- C6 amended: null and the empty string map to null; a string whose
stripped form ends in '%' maps to (parse of the stripped string with every
'%' removed and whitespace re-stripped)/100, null on parse failure; any
other string maps through float parsing with the >1 heuristic, null on
parse failure; a number >1 maps to value/100 and a number in [0,1] to
itself; any other value maps to null, and no case raises. -/
theorem normalize_percent_value_cases :
    normalize_percent_value .pnull = none ∧
    normalize_percent_value (.pstr "") = none ∧
    normalize_percent_value .pother = none ∧
    (∀ s : String, s ≠ "" → ((trimChars s.data).getLast? == some '%') = true →
      normalize_percent_value (.pstr s) =
        (pyFloat (trimChars ((trimChars s.data).filter (fun c => c != '%')))).map
          (fun n => n / 100)) ∧
    (∀ s : String, s ≠ "" → ((trimChars s.data).getLast? == some '%') = false →
      normalize_percent_value (.pstr s) =
        (pyFloat (trimChars s.data)).map (fun n => if 1 < n then n / 100 else n)) ∧
    (∀ x : ℚ, 1 < x → normalize_percent_value (.pnum x) = some (x / 100)) ∧
    (∀ x : ℚ, 0 ≤ x → x ≤ 1 → normalize_percent_value (.pnum x) = some x) := by
  refine ⟨rfl, rfl, rfl, ?_, ?_, ?_, ?_⟩
  · intro s hs hp
    simp only [normalize_percent_value]
    rw [if_neg hs, if_pos hp]
    cases hA : pyFloat (trimChars ((trimChars s.data).filter (fun c => c != '%'))) <;>
      simp [hA]
  · intro s hs hp
    simp only [normalize_percent_value]
    rw [if_neg hs, if_neg (by simp [hp])]
    cases hA : pyFloat (trimChars s.data) <;> simp [hA]
  · intro x hx
    simp only [normalize_percent_value]
    rw [if_pos hx]
  · intro x _ hx1
    simp only [normalize_percent_value]
    rw [if_neg (not_lt.mpr hx1)]

/-- Witness for the amended C6 on the percent string `"62.5%"`. -/
theorem normalize_percent_value_cases_witness :
    normalize_percent_value (.pstr "62.5%") =
      (pyFloat (trimChars ((trimChars "62.5%".data).filter (fun c => c != '%')))).map
        (fun n => n / 100) :=
  normalize_percent_value_cases.2.2.2.1 "62.5%" (by decide) (by decide)

/-- C9 counterexample: the numeric input -0.5 is returned as the negative
number -0.5 — the result is neither null nor non-negative. -/
theorem normalize_percent_negative_passthrough :
    normalize_percent_value (.pnum (-(1 : ℚ) / 2)) = some (-(1 / 2)) ∧
    ¬ (0 : ℚ) ≤ -(1 : ℚ) / 2 := by
  decide

/-- C9 amended: whenever every numeric value the normaliser can parse out
of the input is non-negative (all numeric inputs ≥ 0 and strings parsing
to values ≥ 0), the result is null or a non-negative number; negative
parses are passed through negative. -/
theorem normalize_percent_nonneg_for_nonneg_input (p : PercentValue)
    (h : percentInputNonneg p = true) :
    normalize_percent_value p = none ∨
    ∃ v, normalize_percent_value p = some v ∧ 0 ≤ v := by
  cases p with
  | pnull => exact Or.inl rfl
  | pother => exact Or.inl rfl
  | pnum x =>
    have hx : 0 ≤ x := by simpa [percentInputNonneg] using h
    refine Or.inr ⟨if 1 < x then x / 100 else x, rfl, ?_⟩
    split
    · exact div_nonneg hx (by norm_num)
    · exact hx
  | pstr s =>
    by_cases hs : s = ""
    · subst hs
      exact Or.inl (by simp [normalize_percent_value])
    · have h' := h
      simp only [percentInputNonneg, Bool.and_eq_true] at h'
      obtain ⟨h1, h2⟩ := h'
      simp only [normalize_percent_value]
      rw [if_neg hs]
      by_cases hp : ((trimChars s.data).getLast? == some '%') = true
      · rw [if_pos hp]
        cases hA : pyFloat (trimChars ((trimChars s.data).filter (fun c => c != '%'))) with
        | none => simp [hA]
        | some v =>
          rw [hA] at h1
          exact Or.inr ⟨v / 100, by simp [hA],
            div_nonneg (of_decide_eq_true h1) (by norm_num)⟩
      · rw [if_neg hp]
        cases hA : pyFloat (trimChars s.data) with
        | none => simp [hA]
        | some v =>
          rw [hA] at h2
          have hv : 0 ≤ v := of_decide_eq_true h2
          refine Or.inr ⟨if 1 < v then v / 100 else v, by simp [hA], ?_⟩
          split
          · exact div_nonneg hv (by norm_num)
          · exact hv

/-- Witness for the amended C9 on the numeric input 50. -/
theorem normalize_percent_nonneg_for_nonneg_input_witness :
    percentInputNonneg (.pnum 50) = true ∧
    (normalize_percent_value (.pnum 50) = none ∨
     ∃ v, normalize_percent_value (.pnum 50) = some v ∧ 0 ≤ v) :=
  ⟨by decide, normalize_percent_nonneg_for_nonneg_input (.pnum 50) (by decide)⟩

/-- Non-qualifying ingredients (non-positive weight or non-percentage
group) are skipped by the hydration step. -/
theorem hydrationStep_skip (refT : List (String × ℚ)) (acc : ℚ × ℚ) (ing : Ingredient)
    (h : qualifiesForHydration ing = false) :
    hydrationStep refT acc ing = acc := by
  unfold hydrationStep
  by_cases hw : ing.weight ≤ 0
  · rw [if_pos (Or.inl hw)]
  · by_cases hg : is_percentage_group ing.group = true
    · exfalso
      have hq : qualifiesForHydration ing = true := by
        unfold qualifiesForHydration
        rw [hg, decide_eq_true (lt_of_not_le hw)]
        rfl
      rw [hq] at h
      exact Bool.noConfusion h
    · have hg2 : is_percentage_group ing.group = false := by
        revert hg
        cases is_percentage_group ing.group <;> simp
      rw [if_pos (Or.inr hg2)]

/-- A qualifying ingredient with a reference-table entry contributes its
dry share to the flour total and its wet share to the water total —
including the boundary hydrations 0 and 100, where the shares degenerate
to the full weight and zero. -/
theorem hydrationStep_entry (refT : List (String × ℚ)) (acc : ℚ × ℚ) (ing : Ingredient)
    (hq : qualifiesForHydration ing = true) (h0 : ℚ) (hl : refT.lookup ing.name = some h0) :
    hydrationStep refT acc ing = (acc.1 + dryShare refT ing, acc.2 + wetShare refT ing) := by
  have hq' : 0 < ing.weight ∧ is_percentage_group ing.group = true := by
    simpa [qualifiesForHydration] using hq
  have hw : 0 < ing.weight := hq'.1
  have hg : is_percentage_group ing.group = true := hq'.2
  have hcond : ¬(ing.weight ≤ 0 ∨ is_percentage_group ing.group = false) := by
    rintro (hle | hfalse)
    · exact absurd hw (not_lt.mpr hle)
    · rw [hg] at hfalse
      exact Bool.noConfusion hfalse
  unfold hydrationStep
  rw [if_neg hcond]
  simp only [hl]
  unfold dryShare wetShare refHydrationOf
  rw [hl]
  simp only [Option.getD_some]
  by_cases h1 : clampHydration h0 = 0
  · rw [if_pos h1, h1]
    simp only [Prod.mk.injEq]
    constructor <;> ring
  · by_cases h2 : clampHydration h0 = 100
    · rw [if_neg h1, if_pos h2, h2]
      simp only [Prod.mk.injEq]
      constructor <;> ring
    · rw [if_neg h1, if_neg h2]

/-- The hydration fold, with a generalised accumulator, adds the flour and
water totals componentwise when every qualifying ingredient has a
reference-table entry. -/
theorem hydration_foldl (refT : List (String × ℚ)) :
    ∀ (l : List Ingredient) (acc : ℚ × ℚ),
      (∀ ing ∈ l, qualifiesForHydration ing = true → (refT.lookup ing.name).isSome = true) →
      l.foldl (hydrationStep refT) acc =
        (acc.1 + flourTotalOf l refT, acc.2 + waterTotalOf l refT) := by
  intro l
  induction l with
  | nil =>
    intro acc _
    simp [flourTotalOf, waterTotalOf]
  | cons a t ih =>
    intro acc h
    have ha := h a (List.mem_cons_self a t)
    have ht : ∀ ing ∈ t, qualifiesForHydration ing = true → (refT.lookup ing.name).isSome = true :=
      fun ing hm => h ing (List.mem_cons_of_mem a hm)
    rw [List.foldl_cons, ih _ ht]
    by_cases hq : qualifiesForHydration a = true
    · obtain ⟨h0, hl⟩ := Option.isSome_iff_exists.mp (ha hq)
      rw [hydrationStep_entry refT acc a hq h0 hl]
      simp only [flourTotalOf, waterTotalOf, List.filter_cons, hq, if_true, List.map_cons,
        List.sum_cons, Prod.mk.injEq]
      constructor <;> ring
    · have hq2 : qualifiesForHydration a = false := by
        revert hq
        cases qualifiesForHydration a <;> simp
      rw [hydrationStep_skip refT acc a hq2]
      simp only [flourTotalOf, waterTotalOf, List.filter_cons, hq2]
      rfl

/-- C7: whenever every qualifying ingredient has a reference-table entry,
the hydration is (water total / flour total) * 100 formatted to two
decimals with a '%' suffix, where the flour total sums the dry shares
weight*(100-h)/100 and the water total the wet shares weight*h/100 of the
clamped hydrations; a zero flour total yields the literal "0%". -/
theorem hydration_is_water_over_flour (ings : List Ingredient) (refT : List (String × ℚ))
    (h : ∀ ing ∈ ings, qualifiesForHydration ing = true → (refT.lookup ing.name).isSome = true) :
    calculate_hydration ings refT =
      if flourTotalOf ings refT = 0 then "0%"
      else formatTwoDecimals (waterTotalOf ings refT / flourTotalOf ings refT * 100) ++ "%" := by
  unfold calculate_hydration
  rw [hydration_foldl refT ings (0, 0) h]
  simp

/-- Witness for C7 on the 1000 g flour / 700 g water scenario dough. -/
theorem hydration_is_water_over_flour_witness :
    (∀ ing ∈ demoH, qualifiesForHydration ing = true → (refH.lookup ing.name).isSome = true) ∧
    calculate_hydration demoH refH =
      (if flourTotalOf demoH refH = 0 then "0%"
       else formatTwoDecimals (waterTotalOf demoH refH / flourTotalOf demoH refH * 100) ++ "%") :=
  ⟨by decide, hydration_is_water_over_flour demoH refH (by decide)⟩

example : normalize_percent_value (.pstr "62.5%") = some (625 / 1000) := by decide

example : normalize_percent_value (.pnum 50) = some (1 / 2) := by decide

example : normalize_percent_value (.pnum (1 / 2)) = some (1 / 2) := by decide

example : normalize_percent_value (.pstr "abc") = none := by decide

example : is_flour_ingredient "高筋麵粉" = true := by decide

example : is_flour_ingredient "雞蛋" = false := by decide

example : original_total_flour demoA = 500 := by decide

example : convIngredientsOf (calculate_recipe_conversion demoA 1000 false) =
    [⟨"主麵團", "高筋麵粉", 1000, "100.00%", ""⟩, ⟨"裝飾", "糖粉", 20, "", "sift"⟩] := by decide

example : convIngredientsOf (calculate_recipe_conversion demoA 1000 true) =
    [⟨"主麵團", "高筋麵粉", 1000, "100.00%", ""⟩, ⟨"裝飾", "糖粉", 40, "", "sift"⟩] := by decide

example : calculate_hydration demoH refH = "70.00%" := by decide

example : calculate_hydration [(⟨"主麵團", "糖", 30, "", ""⟩ : Ingredient)] [] = "0%" := by decide

end RecipeCore
